import Mathlib

/-!
Shallow embedding of the posture-analysis pipeline in
`software/data-analysis/posture_algorithms.py` (class `PostureAlgorithms`),
together with theorems settling the specification claims about it.

Conventions of the embedding:
* Python floats are modelled as exact rationals (`ℚ`) wherever the code only
  performs field operations and comparisons, and as real numbers (`ℝ`) where
  the code applies `sqrt` / `atan2`.
* A pandas `DataFrame` is modelled as a `List` of row structures holding the
  columns the modelled function reads or writes.
* `NaN` cells produced by `diff()` / insufficient `min_periods` are modelled
  as `Option ℚ` (`none` = NaN); `fillna(0)` maps `none` to `0`.
* Code that can raise returns `Except String _`.
-/

set_option autoImplicit false

namespace SmartPosture

/-! ## Configuration (`PostureAlgorithms.__init__`) -/

/-- The state built by `PostureAlgorithms.__init__`: sampling configuration,
filter parameters and the feature window, as set in the constructor. -/
structure AlgoConfig where
  sample_rate : ℚ
  window_size : ℚ
  dt : ℚ
  lowpass_cutoff : ℚ
  order : ℕ
  feature_window : ℚ
  deriving DecidableEq

/-- `PostureAlgorithms.__init__(sample_rate, window_size)`.  The constructor
performs no validation; the only way it can raise is the statement
`self.dt = 1.0 / sample_rate`, which raises `ZeroDivisionError` exactly when
`sample_rate == 0`.  Every other field assignment is a plain literal. -/
def initPostureAlgorithms (sampleRate windowSize : ℚ) : Except String AlgoConfig :=
  if sampleRate = 0 then
    Except.error "ZeroDivisionError: division by zero"
  else
    Except.ok ⟨sampleRate, windowSize, 1 / sampleRate, 3, 4, 30⟩

/-! ## Rule classifier (`classify_posture_realtime`) -/

/-- The fixed classification thresholds from `self.thresholds` (degrees). -/
structure Thresholds where
  forward_head_mild : ℚ
  forward_head_severe : ℚ
  hunched_shoulders_mild : ℚ
  hunched_shoulders_severe : ℚ
  side_lean_mild : ℚ
  side_lean_severe : ℚ
  movement_threshold : ℚ
  stability_threshold : ℚ
  deriving DecidableEq

/-- The threshold values set in `__init__`. -/
def thresholds : Thresholds :=
  ⟨10, 20, 15, 25, 8, 15, 3, 2⟩

/-- The columns of one row read by `classify_posture_realtime`.
`spine_stability` is an `Option` because the code guards criterion 4 with
`if 'spine_stability' in df_classified.columns`: `none` models the column
being absent from the frame. -/
structure CRow where
  spine_stability : Option ℚ
  s1_pitch : ℚ
  spine_pitch_curvature : ℚ
  spine_roll_curvature : ℚ
  deriving DecidableEq

/-- One row's classifier output: the three columns the loop writes. -/
structure Classification where
  posture_label : String
  severity_score : ℕ
  confidence : ℚ
  deriving DecidableEq

/-- The per-row loop body of `classify_posture_realtime` up to the label
decision: the `posture_issues` list and the accumulated `severity`, built by
the four criteria in source order (forward head, hunched shoulders, side
lean, movement). -/
def postureIssuesSeverity (row : CRow) : List String × ℕ :=
  let l1 : List String :=
    if thresholds.forward_head_severe < row.s1_pitch then ["severe_forward_head"]
    else if thresholds.forward_head_mild < row.s1_pitch then ["mild_forward_head"]
    else []
  let s1 : ℕ :=
    if thresholds.forward_head_severe < row.s1_pitch then 3
    else if thresholds.forward_head_mild < row.s1_pitch then 1
    else 0
  let l2 : List String :=
    if thresholds.hunched_shoulders_severe < row.spine_pitch_curvature then ["severe_hunched"]
    else if thresholds.hunched_shoulders_mild < row.spine_pitch_curvature then ["mild_hunched"]
    else []
  let s2 : ℕ :=
    if thresholds.hunched_shoulders_severe < row.spine_pitch_curvature then 3
    else if thresholds.hunched_shoulders_mild < row.spine_pitch_curvature then 1
    else 0
  let l3 : List String :=
    if thresholds.side_lean_severe < |row.spine_roll_curvature| then ["severe_side_lean"]
    else if thresholds.side_lean_mild < |row.spine_roll_curvature| then ["mild_side_lean"]
    else []
  let s3 : ℕ :=
    if thresholds.side_lean_severe < |row.spine_roll_curvature| then 2
    else if thresholds.side_lean_mild < |row.spine_roll_curvature| then 1
    else 0
  let l4 : List String :=
    match row.spine_stability with
    | none => []
    | some st =>
      if thresholds.movement_threshold < st then ["excessive_movement"]
      else if st < thresholds.stability_threshold then ["static_posture"]
      else []
  (l1 ++ l2 ++ l3 ++ l4, s1 + s2 + s3)

/-- The per-row decision of `classify_posture_realtime`: the label/confidence
from the number of issues, and `severity_score = min(severity, 10)`. -/
def classifyRow (row : CRow) : Classification :=
  let is := postureIssuesSeverity row
  if is.1 = [] then ⟨"good_posture", min is.2 10, 9 / 10⟩
  else if is.1.length = 1 then ⟨is.1.headD "unknown", min is.2 10, 8 / 10⟩
  else ⟨"multiple_issues", min is.2 10, 7 / 10⟩

/-- `classify_posture_realtime` classifies each row independently. -/
def classifyPostureRealtime (rows : List CRow) : List Classification :=
  rows.map classifyRow

/-- Stated from the spec's words for comparison: the forward-head severity
delta (severe tier +3, mild tier +1). -/
def specForwardHeadDelta (p : ℚ) : ℕ :=
  if thresholds.forward_head_severe < p then 3
  else if thresholds.forward_head_mild < p then 1
  else 0

/-- Stated from the spec's words for comparison: the hunched-shoulders
severity delta (severe tier +3, mild tier +1). -/
def specHunchedDelta (c : ℚ) : ℕ :=
  if thresholds.hunched_shoulders_severe < c then 3
  else if thresholds.hunched_shoulders_mild < c then 1
  else 0

/-- Stated from the spec's words for comparison: the side-lean severity
delta (severe tier +2, mild tier +1). -/
def specSideLeanDelta (r : ℚ) : ℕ :=
  if thresholds.side_lean_severe < |r| then 2
  else if thresholds.side_lean_mild < |r| then 1
  else 0

/-- Stated from the spec's words for comparison (claim C10): the classifier
restricted to the three angle criteria alone, with the same label rule. -/
def specAngleOnlyClassify (p c r : ℚ) : Classification :=
  let issues : List String :=
    (if thresholds.forward_head_severe < p then ["severe_forward_head"]
     else if thresholds.forward_head_mild < p then ["mild_forward_head"]
     else []) ++
    (if thresholds.hunched_shoulders_severe < c then ["severe_hunched"]
     else if thresholds.hunched_shoulders_mild < c then ["mild_hunched"]
     else []) ++
    (if thresholds.side_lean_severe < |r| then ["severe_side_lean"]
     else if thresholds.side_lean_mild < |r| then ["mild_side_lean"]
     else [])
  let sev := specForwardHeadDelta p + specHunchedDelta c + specSideLeanDelta r
  if issues = [] then ⟨"good_posture", min sev 10, 9 / 10⟩
  else if issues.length = 1 then ⟨issues.headD "unknown", min sev 10, 8 / 10⟩
  else ⟨"multiple_issues", min sev 10, 7 / 10⟩

/-! ## Preprocessor (`preprocess_data`) -/

/-- One raw sensor row: the twelve accelerometer/gyroscope channels read by
`preprocess_data` (the `timestamp` and temperature columns are carried along
untouched and are omitted). -/
structure RawRow where
  s1_accel_x : ℚ
  s1_accel_y : ℚ
  s1_accel_z : ℚ
  s1_gyro_x : ℚ
  s1_gyro_y : ℚ
  s1_gyro_z : ℚ
  s2_accel_x : ℚ
  s2_accel_y : ℚ
  s2_accel_z : ℚ
  s2_gyro_x : ℚ
  s2_gyro_y : ℚ
  s2_gyro_z : ℚ
  deriving DecidableEq

/-- The all-zero raw row, used for concrete test inputs. -/
def zeroRawRow : RawRow := ⟨0, 0, 0, 0, 0, 0, 0, 0, 0, 0, 0, 0⟩

/-- `pandas.Series.mean()` of one channel. -/
def channelMean (xs : List ℚ) : ℚ := xs.sum / xs.length

/-- The 3-sigma outlier suppression of `preprocess_data` on one channel:
`mean = col.mean(); std = col.std(); col[|col - mean| > 3*std] = mean`.
Pandas `std()` uses `ddof=1`, so for a series of length `<= 1` the standard
deviation is `NaN`, the mask is all-false and nothing changes.  Since both
sides of `|x - mean| > 3*std` are nonnegative, the comparison is expressed
exactly in `ℚ` as `(x - mean)^2 > 9 * variance`. -/
def suppressChannel (xs : List ℚ) : List ℚ :=
  if xs.length ≤ 1 then xs
  else
    let m := channelMean xs
    let v := ((xs.map fun x => (x - m) ^ 2).sum) / ((xs.length : ℚ) - 1)
    xs.map fun x => if 9 * v < (x - m) ^ 2 then m else x

/-- Write one whole column back into the rows: `df[col] = f(df[col])`.
When `f` preserves length (every filter modelled here does), the zip pairs
each row with its new cell. -/
def mapChannel (get : RawRow → ℚ) (set : RawRow → ℚ → RawRow)
    (f : List ℚ → List ℚ) (rows : List RawRow) : List RawRow :=
  List.zipWith set rows (f (rows.map get))

/-- The outlier-suppression loop of `preprocess_data`: the 3-sigma rule
applied to each of the six accelerometer channels in turn. -/
def outlierStep (rows : List RawRow) : List RawRow :=
  let r1 := mapChannel RawRow.s1_accel_x (fun r x => { r with s1_accel_x := x }) suppressChannel rows
  let r2 := mapChannel RawRow.s1_accel_y (fun r x => { r with s1_accel_y := x }) suppressChannel r1
  let r3 := mapChannel RawRow.s1_accel_z (fun r x => { r with s1_accel_z := x }) suppressChannel r2
  let r4 := mapChannel RawRow.s2_accel_x (fun r x => { r with s2_accel_x := x }) suppressChannel r3
  let r5 := mapChannel RawRow.s2_accel_y (fun r x => { r with s2_accel_y := x }) suppressChannel r4
  mapChannel RawRow.s2_accel_z (fun r x => { r with s2_accel_z := x }) suppressChannel r5

/-- Apply a per-channel filter to all twelve accelerometer and gyroscope
channels of both sensors (the low-pass loop of `preprocess_data`). -/
def applyTwelve (f : List ℚ → List ℚ) (rows : List RawRow) : List RawRow :=
  let r1 := mapChannel RawRow.s1_accel_x (fun r x => { r with s1_accel_x := x }) f rows
  let r2 := mapChannel RawRow.s1_accel_y (fun r x => { r with s1_accel_y := x }) f r1
  let r3 := mapChannel RawRow.s1_accel_z (fun r x => { r with s1_accel_z := x }) f r2
  let r4 := mapChannel RawRow.s1_gyro_x (fun r x => { r with s1_gyro_x := x }) f r3
  let r5 := mapChannel RawRow.s1_gyro_y (fun r x => { r with s1_gyro_y := x }) f r4
  let r6 := mapChannel RawRow.s1_gyro_z (fun r x => { r with s1_gyro_z := x }) f r5
  let r7 := mapChannel RawRow.s2_accel_x (fun r x => { r with s2_accel_x := x }) f r6
  let r8 := mapChannel RawRow.s2_accel_y (fun r x => { r with s2_accel_y := x }) f r7
  let r9 := mapChannel RawRow.s2_accel_z (fun r x => { r with s2_accel_z := x }) f r8
  let r10 := mapChannel RawRow.s2_gyro_x (fun r x => { r with s2_gyro_x := x }) f r9
  let r11 := mapChannel RawRow.s2_gyro_y (fun r x => { r with s2_gyro_y := x }) f r10
  mapChannel RawRow.s2_gyro_z (fun r x => { r with s2_gyro_z := x }) f r11

/-- Apply a per-channel filter to the six gyroscope channels (the
Savitzky-Golay smoothing loop of `preprocess_data`). -/
def applyGyro (f : List ℚ → List ℚ) (rows : List RawRow) : List RawRow :=
  let r1 := mapChannel RawRow.s1_gyro_x (fun r x => { r with s1_gyro_x := x }) f rows
  let r2 := mapChannel RawRow.s1_gyro_y (fun r x => { r with s1_gyro_y := x }) f r1
  let r3 := mapChannel RawRow.s1_gyro_z (fun r x => { r with s1_gyro_z := x }) f r2
  let r4 := mapChannel RawRow.s2_gyro_x (fun r x => { r with s2_gyro_x := x }) f r3
  let r5 := mapChannel RawRow.s2_gyro_y (fun r x => { r with s2_gyro_y := x }) f r4
  mapChannel RawRow.s2_gyro_z (fun r x => { r with s2_gyro_z := x }) f r5

/-- Step 3 of `preprocess_data`: `savgol_filter` over the gyro channels,
executed only when `len(df_clean) >= 5`.  The numeric kernel of
`scipy.signal.savgol_filter` (window `min(5, len)`, polyorder 2) is a
length-preserving convolution abstracted here as the parameter `sg`. -/
def savgolStage (sg : List ℚ → List ℚ) (rows : List RawRow) : List RawRow :=
  if 5 ≤ rows.length then applyGyro sg rows else rows

/-- `preprocess_data`, parametric in the numeric kernels of the two scipy
filters (`ff` for the `filtfilt` low-pass, `sg` for `savgol_filter`), both
length-preserving per scipy's contract.  Control flow follows the source:

1. the 3-sigma outlier suppression over the accelerometer channels;
2. if `lowpass_cutoff (= 3.0) < nyquist (= sample_rate / 2)`, for each of the
   twelve channels, if `len(df_clean) > 2 * order (= 8)` apply `filtfilt`.
   Per scipy's documented contract, `filtfilt` with the `butter(4, ...)`
   coefficients (`len(b) = len(a) = 5`) raises `ValueError` unless the series
   is longer than `padlen = 3 * max(len(a), len(b)) = 15`; the exception
   propagates out of `preprocess_data`;
3. if `len(df_clean) >= 5`, smooth the gyro channels with `savgol_filter`
   (its preconditions `polyorder < window_length <= len` always hold here). -/
def preprocessData (sampleRate : ℕ) (ff sg : List ℚ → List ℚ)
    (rows : List RawRow) : Except String (List RawRow) :=
  let cleaned := outlierStep rows
  let nyquist : ℚ := (sampleRate : ℚ) / 2
  if (3 : ℚ) < nyquist then
    if 2 * 4 < cleaned.length then
      if cleaned.length ≤ 3 * 5 then
        Except.error "ValueError: The length of the input vector x must be greater than padlen, which is 15."
      else
        Except.ok (savgolStage sg (applyTwelve ff cleaned))
    else
      Except.ok (savgolStage sg cleaned)
  else
    Except.ok (savgolStage sg cleaned)

/-! ## Orientation extractor (`extract_orientation`) -/

/-- Two-argument arctangent with the quadrant convention of `numpy.arctan2`:
`atan2 y x` is the angle of the point `(x, y)`. -/
noncomputable def atan2 (y x : ℝ) : ℝ :=
  if 0 < x then Real.arctan (y / x)
  else if x < 0 then
    (if 0 ≤ y then Real.arctan (y / x) + Real.pi else Real.arctan (y / x) - Real.pi)
  else if 0 < y then Real.pi / 2
  else if y < 0 then -(Real.pi / 2)
  else 0

/-- The six accelerometer cells of one sample that `extract_orientation`
reads (`s1_accel_x/y/z`, `s2_accel_x/y/z`), as real numbers. -/
structure AccelPair where
  s1x : ℝ
  s1y : ℝ
  s1z : ℝ
  s2x : ℝ
  s2y : ℝ
  s2z : ℝ

/-- `pitch = arctan2(-accel_x, sqrt(accel_y**2 + accel_z**2)) * 180 / pi`. -/
noncomputable def pitchOf (ax ay az : ℝ) : ℝ :=
  atan2 (-ax) (Real.sqrt (ay ^ 2 + az ^ 2)) * 180 / Real.pi

/-- `roll = arctan2(accel_y, accel_z) * 180 / pi`. -/
noncomputable def rollOf (ay az : ℝ) : ℝ :=
  atan2 ay az * 180 / Real.pi

/-- Column `s1_pitch` of `extract_orientation`. -/
noncomputable def s1_pitch (r : AccelPair) : ℝ := pitchOf r.s1x r.s1y r.s1z

/-- Column `s1_roll` of `extract_orientation`. -/
noncomputable def s1_roll (r : AccelPair) : ℝ := rollOf r.s1y r.s1z

/-- Column `s2_pitch` of `extract_orientation`. -/
noncomputable def s2_pitch (r : AccelPair) : ℝ := pitchOf r.s2x r.s2y r.s2z

/-- Column `s2_roll` of `extract_orientation`. -/
noncomputable def s2_roll (r : AccelPair) : ℝ := rollOf r.s2y r.s2z

/-- Column `spine_pitch_curvature = s1_pitch - s2_pitch`. -/
noncomputable def spine_pitch_curvature (r : AccelPair) : ℝ :=
  s1_pitch r - s2_pitch r

/-- Column `spine_roll_curvature = s1_roll - s2_roll`. -/
noncomputable def spine_roll_curvature (r : AccelPair) : ℝ :=
  s1_roll r - s2_roll r

/-- Column `spine_curvature_magnitude = sqrt(cp**2 + cr**2)`. -/
noncomputable def spine_curvature_magnitude (r : AccelPair) : ℝ :=
  Real.sqrt (spine_pitch_curvature r ^ 2 + spine_roll_curvature r ^ 2)

/-! ## Feature extractor (`extract_advanced_features`) -/

/-- The columns of one row read by `extract_advanced_features`. -/
structure FRow where
  s1_pitch : ℚ
  s2_pitch : ℚ
  spine_curvature_magnitude : ℚ
  s1_gyro_x : ℚ
  s1_gyro_y : ℚ
  s1_gyro_z : ℚ
  s2_gyro_x : ℚ
  s2_gyro_y : ℚ
  s2_gyro_z : ℚ
  deriving DecidableEq

/-- The all-zero feature-input row, used for concrete test inputs. -/
def zeroFRow : FRow := ⟨0, 0, 0, 0, 0, 0, 0, 0, 0⟩

/-- `window_samples = min(self.feature_window * self.sample_rate, len(df))`
with `feature_window = 30`. -/
def windowSamples (sampleRate n : ℕ) : ℕ := min (30 * sampleRate) n

/-- The trailing rolling window of width `w` ending at index `i`:
the cells pandas `rolling(window=w)` aggregates at position `i`. -/
def windowAt (xs : List (Option ℚ)) (w i : ℕ) : List (Option ℚ) :=
  (xs.take (i + 1)).drop (i + 1 - w)

/-- The non-`NaN` cells of a window (pandas aggregations skip `NaN`). -/
def validVals (xs : List (Option ℚ)) : List ℚ := xs.filterMap id

/-- A column of all-valid cells. -/
def asOpt (xs : List ℚ) : List (Option ℚ) := xs.map some

/-- `series.rolling(window=w, min_periods=minp).mean().fillna(0)`:
at each index, the mean of the valid cells in the trailing window when at
least `minp` of them are valid, else `NaN`, which `fillna` turns into 0. -/
def rollingMeanFilled (xs : List (Option ℚ)) (w minp : ℕ) : List ℚ :=
  (List.range xs.length).map fun i =>
    let vs := validVals (windowAt xs w i)
    if vs.length < minp then 0 else vs.sum / vs.length

/-- `series.rolling(window=w, min_periods=minp).std().fillna(0)`:
the sample standard deviation (`ddof=1`) of the valid cells in the trailing
window when at least `minp` are valid, else 0 after `fillna`. -/
noncomputable def rollingStdFilled (xs : List (Option ℚ)) (w minp : ℕ) : List ℝ :=
  (List.range xs.length).map fun i =>
    let vs := validVals (windowAt xs w i)
    if vs.length < minp then 0
    else Real.sqrt ((((vs.map fun x => (x - channelMean vs) ^ 2).sum / ((vs.length : ℚ) - 1) : ℚ) : ℝ))

/-- `series.diff()`: `NaN` at index 0, `x[i] - x[i-1]` after. -/
def diffOpt (xs : List ℚ) : List (Option ℚ) :=
  match xs with
  | [] => []
  | _ :: _ => none :: ((xs.zip xs.tail).map fun p => some (p.2 - p.1))

/-- `series.diff().fillna(0)`. -/
def diffFilled (xs : List ℚ) : List ℚ :=
  match xs with
  | [] => []
  | _ :: _ => 0 :: ((xs.zip xs.tail).map fun p => p.2 - p.1)

/-- `numpy.cumsum`: running partial sums. -/
def cumsum (xs : List ℚ) : List ℚ :=
  (List.range xs.length).map fun i => (xs.take (i + 1)).sum

/-- Column `s1_movement_variability`: rolling std of `s1_pitch` over
`window_samples` with `min_periods=5`; all-zero when `window_samples < 10`. -/
noncomputable def s1MovementVariability (sampleRate : ℕ) (rows : List FRow) : List ℝ :=
  if 10 ≤ windowSamples sampleRate rows.length then
    rollingStdFilled (asOpt (rows.map FRow.s1_pitch)) (windowSamples sampleRate rows.length) 5
  else List.replicate rows.length 0

/-- Column `s2_movement_variability` (as `s1_movement_variability`, sensor 2). -/
noncomputable def s2MovementVariability (sampleRate : ℕ) (rows : List FRow) : List ℝ :=
  if 10 ≤ windowSamples sampleRate rows.length then
    rollingStdFilled (asOpt (rows.map FRow.s2_pitch)) (windowSamples sampleRate rows.length) 5
  else List.replicate rows.length 0

/-- Column `spine_stability`: rolling std of `spine_curvature_magnitude`
over `window_samples` with `min_periods=5`; all-zero below 10 samples. -/
noncomputable def spineStability (sampleRate : ℕ) (rows : List FRow) : List ℝ :=
  if 10 ≤ windowSamples sampleRate rows.length then
    rollingStdFilled (asOpt (rows.map FRow.spine_curvature_magnitude))
      (windowSamples sampleRate rows.length) 5
  else List.replicate rows.length 0

/-- Column `s1_pitch_velocity`:
`df['s1_pitch'].diff().rolling(window=5, min_periods=2).mean().fillna(0)`. -/
def s1PitchVelocity (sampleRate : ℕ) (rows : List FRow) : List ℚ :=
  if 10 ≤ windowSamples sampleRate rows.length then
    rollingMeanFilled (diffOpt (rows.map FRow.s1_pitch)) 5 2
  else List.replicate rows.length 0

/-- Column `s2_pitch_velocity` (as `s1_pitch_velocity`, sensor 2). -/
def s2PitchVelocity (sampleRate : ℕ) (rows : List FRow) : List ℚ :=
  if 10 ≤ windowSamples sampleRate rows.length then
    rollingMeanFilled (diffOpt (rows.map FRow.s2_pitch)) 5 2
  else List.replicate rows.length 0

/-- Column `s1_pitch_acceleration`: `s1_pitch_velocity.diff().fillna(0)`. -/
def s1PitchAcceleration (sampleRate : ℕ) (rows : List FRow) : List ℚ :=
  if 10 ≤ windowSamples sampleRate rows.length then
    diffFilled (s1PitchVelocity sampleRate rows)
  else List.replicate rows.length 0

/-- Column `s2_pitch_acceleration` (as `s1_pitch_acceleration`, sensor 2). -/
def s2PitchAcceleration (sampleRate : ℕ) (rows : List FRow) : List ℚ :=
  if 10 ≤ windowSamples sampleRate rows.length then
    diffFilled (s2PitchVelocity sampleRate rows)
  else List.replicate rows.length 0

/-- Column `s1_cumulative_rotation`:
`np.cumsum(|gyro_x| + |gyro_y| + |gyro_z|) * self.dt` with `dt = 1/sample_rate`. -/
def s1CumulativeRotation (sampleRate : ℕ) (rows : List FRow) : List ℚ :=
  if 10 ≤ windowSamples sampleRate rows.length then
    (cumsum (rows.map fun r => |r.s1_gyro_x| + |r.s1_gyro_y| + |r.s1_gyro_z|)).map
      fun x => x * (1 / (sampleRate : ℚ))
  else List.replicate rows.length 0

/-- Column `s2_cumulative_rotation` (as `s1_cumulative_rotation`, sensor 2). -/
def s2CumulativeRotation (sampleRate : ℕ) (rows : List FRow) : List ℚ :=
  if 10 ≤ windowSamples sampleRate rows.length then
    (cumsum (rows.map fun r => |r.s2_gyro_x| + |r.s2_gyro_y| + |r.s2_gyro_z|)).map
      fun x => x * (1 / (sampleRate : ℚ))
  else List.replicate rows.length 0

/-! ## Trend analyzer (`analyze_patterns`, `generate_recommendations`) -/

/-- The columns of one row read by `analyze_patterns` (the shape produced by
the pipeline: all four columns present). -/
structure PRow where
  posture_label : String
  s1_pitch : ℚ
  spine_curvature_magnitude : ℚ
  spine_stability : ℚ
  deriving DecidableEq

/-- The `trends` sub-dictionary of the analysis result; `none` models an
absent key. -/
structure TrendInfo where
  forward_head_trend : Option String
  spine_curvature_trend : Option String
  movement_pattern : Option String
  deriving DecidableEq

/-- The dictionary returned by `analyze_patterns`; `none` models an absent
key (the long branch never sets `pattern_analysis`, the short branch never
sets `total_samples` or `posture_distribution`).  The formatted
`time_period` string is elided. -/
structure PatternReport where
  pattern_analysis : Option String
  total_samples : Option ℕ
  posture_distribution : Option (List (String × ℚ))
  trends : TrendInfo
  recommendations : List String
  deriving DecidableEq

/-- Number of rows carrying a given label (`value_counts` count). -/
def countLabel (rows : List PRow) (l : String) : ℕ :=
  (rows.filter fun r => r.posture_label = l).length

/-- The `posture_percentages` dictionary: for each distinct label,
`count / total_samples * 100`.  (`value_counts` orders by frequency; the
order of entries is irrelevant to every lookup made of this dictionary.) -/
def postureDistribution (rows : List PRow) : List (String × ℚ) :=
  ((rows.map PRow.posture_label).dedup).map fun l =>
    (l, ((countLabel rows l : ℚ) / (rows.length : ℚ)) * 100)

/-- `dict.get(label, 0)` on the percentages dictionary. -/
def pct (dist : List (String × ℚ)) (l : String) : ℚ :=
  ((dist.find? fun p => p.1 = l).map Prod.snd).getD 0

/-- The slope `np.polyfit(range(n), ys, 1)[0]`: the ordinary-least-squares
line coefficient of `ys` against sample index. -/
def olsSlope (ys : List ℚ) : ℚ :=
  let n : ℚ := (ys.length : ℚ)
  let xs : List ℚ := (List.range ys.length).map fun (i : ℕ) => (i : ℚ)
  let sx := xs.sum
  let sy := ys.sum
  let sxy := ((xs.zip ys).map fun p => p.1 * p.2).sum
  let sxx := (xs.map fun x => x ^ 2).sum
  (n * sxy - sx * sy) / (n * sxx - sx ^ 2)

/-- Trend classification: `'improving' if slope < -0.01 else 'worsening' if
slope > 0.01 else 'stable'`. -/
def trendWord (slope : ℚ) : String :=
  if slope < -(1 / 100) then "improving"
  else if 1 / 100 < slope then "worsening"
  else "stable"

/-- Movement-pattern classification from the mean `spine_stability`. -/
def movementPattern (avg : ℚ) : String :=
  if 4 < avg then "highly_dynamic"
  else if 2 < avg then "moderately_active"
  else if avg < 1 / 2 then "too_static"
  else "optimal"

/-- `pandas.Series.mean()`. -/
def meanQ (xs : List ℚ) : ℚ := xs.sum / (xs.length : ℚ)

/-- `generate_recommendations`: the deterministic rule table from the
posture distribution and trends, truncated to the first six entries.
The emoji prefixes of the advice strings are elided. -/
def generateRecommendations (dist : Option (List (String × ℚ)))
    (tr : TrendInfo) : List String :=
  match dist with
  | none => ["Continue monitoring for personalized recommendations"]
  | some d =>
    let fhRecs : List String :=
      if 30 < pct d "severe_forward_head" + pct d "mild_forward_head" then
        ["Forward Head Posture Alert: Adjust monitor height to eye level",
         "Exercise: Chin tucks (10 reps every hour)"] ++
        (if tr.forward_head_trend = some "worsening" then
          ["Trend Alert: Forward head posture is getting worse - take immediate action!"]
         else [])
      else []
    let hunchedRecs : List String :=
      if 25 < pct d "severe_hunched" + pct d "mild_hunched" then
        ["Hunched Shoulders Detected: Focus on shoulder blade squeezes",
         "Stretching: Doorway chest stretch (30 seconds, 3 times)"]
      else []
    let sideRecs : List String :=
      if 20 < pct d "severe_side_lean" + pct d "mild_side_lean" then
        ["Side Lean Detected: Check chair height and desk setup",
         "Exercise: Side planks for core strengthening"]
      else []
    let movementRecs : List String :=
      if tr.movement_pattern.getD "unknown" = "too_static" then
        ["Movement Alert: Take a 2-minute movement break every 30 minutes",
         "Set hourly reminders to change position"]
      else if tr.movement_pattern.getD "unknown" = "highly_dynamic" then
        ["Consider if discomfort is causing excessive movement",
         "Check ergonomic setup - chair and desk height"]
      else []
    let scoreRecs : List String :=
      if 70 < pct d "good_posture" then ["Excellent work! Maintain current habits"]
      else if 50 < pct d "good_posture" then ["Good progress - minor adjustments needed"]
      else if pct d "good_posture" < 30 then
        ["Significant improvement needed - consider ergonomic assessment"]
      else []
    let trendRecs : List String :=
      if tr.spine_curvature_trend = some "improving" then
        ["Great news! Your posture is improving over time"]
      else if tr.spine_curvature_trend = some "worsening" then
        ["Warning: Posture declining - review workspace setup"]
      else []
    (fhRecs ++ hunchedRecs ++ sideRecs ++ movementRecs ++ scoreRecs ++ trendRecs).take 6

/-- `analyze_patterns(df, analysis_window_minutes)`: the insufficient-data
guard `len(df) < self.sample_rate * 60`, then the distribution, the two
OLS trends, the movement pattern and the recommendations over the trailing
`min(analysis_window_minutes * 60 * sample_rate, len(df))` rows. -/
def analyzePatterns (sampleRate minutes : ℕ) (rows : List PRow) : PatternReport :=
  if rows.length < sampleRate * 60 then
    ⟨some "insufficient_data", none, none, ⟨none, none, none⟩,
     ["Collect more data for pattern analysis"]⟩
  else
    let analysisSamples := min (minutes * 60 * sampleRate) rows.length
    let recent := rows.drop (rows.length - analysisSamples)
    let dist := postureDistribution recent
    let tr : TrendInfo :=
      ⟨some (trendWord (olsSlope (recent.map PRow.s1_pitch))),
       some (trendWord (olsSlope (recent.map PRow.spine_curvature_magnitude))),
       some (movementPattern (meanQ (recent.map PRow.spine_stability)))⟩
    ⟨none, some recent.length, some dist, tr, generateRecommendations (some dist) tr⟩

/-! ## Concrete test inputs -/

/-- Twelve samples whose `s1_accel_x` channel is ten zeros, a 1 and a 100
(all other channels zero): input for the outlier-suppression analysis. -/
def c3Rows : List RawRow :=
  List.replicate 10 zeroRawRow ++
    [{ zeroRawRow with s1_accel_x := 1 }, { zeroRawRow with s1_accel_x := 100 }]

/-- Ten samples with `s1_pitch = 0, 1, ..., 9` and all other columns zero:
input for the rolling-feature analysis. -/
def c5Rows : List FRow :=
  (List.range 10).map fun (i : ℕ) => { zeroFRow with s1_pitch := (i : ℚ) }

/-!
# Theorems

Helper lemmas first, then for each claim its theorem (with witness where the
statement carries hypotheses) or counterexample.
-/

/-! ### Helper lemmas -/

theorem zipWith_right {α β : Type} (as : List α) (bs : List β)
    (h : bs.length ≤ as.length) : List.zipWith (fun _ b => b) as bs = bs := by
  induction as generalizing bs with
  | nil => cases bs with
    | nil => rfl
    | cons b bs => simp at h
  | cons a as ih => cases bs with
    | nil => rfl
    | cons b bs => simp_all

theorem zipWith_left_map {α β γ : Type} (g : α → γ) (as : List α) (bs : List β)
    (h : as.length ≤ bs.length) : List.zipWith (fun a _ => g a) as bs = as.map g := by
  induction as generalizing bs with
  | nil => rfl
  | cons a as ih => cases bs with
    | nil => simp at h
    | cons b bs => simp_all

theorem suppressChannel_length (xs : List ℚ) :
    (suppressChannel xs).length = xs.length := by
  unfold suppressChannel
  split <;> simp

theorem mapChannel_length (get : RawRow → ℚ) (set : RawRow → ℚ → RawRow)
    (f : List ℚ → List ℚ) (rows : List RawRow)
    (hf : ∀ xs, (f xs).length = xs.length) :
    (mapChannel get set f rows).length = rows.length := by
  simp [mapChannel, hf]

/-- Reading back the channel a `mapChannel` pass just wrote gives the
filtered channel. -/
theorem mapChannel_map_same (get : RawRow → ℚ) (set : RawRow → ℚ → RawRow)
    (f : List ℚ → List ℚ) (rows : List RawRow)
    (hgs : ∀ r x, get (set r x) = x)
    (hf : ∀ xs, (f xs).length = xs.length) :
    (mapChannel get set f rows).map get = f (rows.map get) := by
  simp only [mapChannel, List.map_zipWith, hgs]
  exact zipWith_right _ _ (by simp [hf])

/-- A `mapChannel` pass leaves every other channel unchanged. -/
theorem mapChannel_map_other (get' get : RawRow → ℚ) (set : RawRow → ℚ → RawRow)
    (f : List ℚ → List ℚ) (rows : List RawRow)
    (hgs : ∀ r x, get' (set r x) = get' r)
    (hf : ∀ xs, (f xs).length = xs.length) :
    (mapChannel get set f rows).map get' = rows.map get' := by
  simp only [mapChannel, List.map_zipWith, hgs]
  exact zipWith_left_map _ _ _ (by simp [hf])

theorem outlierStep_length (rows : List RawRow) :
    (outlierStep rows).length = rows.length := by
  simp only [outlierStep]
  rw [mapChannel_length _ _ _ _ suppressChannel_length,
    mapChannel_length _ _ _ _ suppressChannel_length,
    mapChannel_length _ _ _ _ suppressChannel_length,
    mapChannel_length _ _ _ _ suppressChannel_length,
    mapChannel_length _ _ _ _ suppressChannel_length,
    mapChannel_length _ _ _ _ suppressChannel_length]

/-- The `s1_accel_x` column of the outlier step's output is the 3-sigma
suppression of the input's `s1_accel_x` column. -/
theorem outlierStep_map_s1ax (rows : List RawRow) :
    (outlierStep rows).map RawRow.s1_accel_x =
      suppressChannel (rows.map RawRow.s1_accel_x) := by
  simp only [outlierStep]
  rw [mapChannel_map_other RawRow.s1_accel_x RawRow.s2_accel_z
      (fun r x => { r with s2_accel_z := x }) suppressChannel _
      (fun r x => rfl) suppressChannel_length,
    mapChannel_map_other RawRow.s1_accel_x RawRow.s2_accel_y
      (fun r x => { r with s2_accel_y := x }) suppressChannel _
      (fun r x => rfl) suppressChannel_length,
    mapChannel_map_other RawRow.s1_accel_x RawRow.s2_accel_x
      (fun r x => { r with s2_accel_x := x }) suppressChannel _
      (fun r x => rfl) suppressChannel_length,
    mapChannel_map_other RawRow.s1_accel_x RawRow.s1_accel_z
      (fun r x => { r with s1_accel_z := x }) suppressChannel _
      (fun r x => rfl) suppressChannel_length,
    mapChannel_map_other RawRow.s1_accel_x RawRow.s1_accel_y
      (fun r x => { r with s1_accel_y := x }) suppressChannel _
      (fun r x => rfl) suppressChannel_length,
    mapChannel_map_same RawRow.s1_accel_x
      (fun r x => { r with s1_accel_x := x }) suppressChannel _
      (fun r x => rfl) suppressChannel_length]

/-! ### Claim C8: construction-time failure -/

/-- Construction succeeds exactly when `sample_rate` is nonzero: the only
statement of `__init__` that can raise is `self.dt = 1.0 / sample_rate`. -/
theorem c8_init_ok_iff (sr w : ℚ) :
    (∃ cfg, initPostureAlgorithms sr w = Except.ok cfg) ↔ sr ≠ 0 := by
  unfold initPostureAlgorithms
  by_cases h : sr = 0 <;> simp [h]

/-- Counterexample to claim C8 as stated: `sample_rate = -5` is
non-positive, yet construction succeeds (no exception is raised; the
constructor merely stores `dt = -1/5`). -/
theorem c8_counterexample :
    (-5 : ℚ) ≤ 0 ∧
      initPostureAlgorithms (-5) 50 = Except.ok ⟨-5, 50, -(1 / 5), 3, 4, 30⟩ := by
  constructor
  · norm_num
  · norm_num [initPostureAlgorithms]

/-- Witness for `c8_init_ok_iff` at `sample_rate = 10`. -/
theorem c8_init_witness :
    (10 : ℚ) ≠ 0 ∧ ∃ cfg, initPostureAlgorithms 10 50 = Except.ok cfg :=
  ⟨by norm_num, (c8_init_ok_iff 10 50).mpr (by norm_num)⟩

/-! ### Claim C2: preprocessing length / exception behaviour -/

/-- Claim C2 fails on the code: at the default `sample_rate = 10` a series
of 9 samples passes the `len > 2 * order` guard but violates scipy's
`filtfilt` precondition `len > padlen = 15`, so `preprocess_data` raises
`ValueError` instead of returning 9 samples.  (The filter kernels are
instantiated with `id`; the error is raised before they are ever applied.) -/
theorem c2_preprocess_raises_on_nine_rows :
    preprocessData 10 id id (List.replicate 9 zeroRawRow) =
      Except.error "ValueError: The length of the input vector x must be greater than padlen, which is 15." := by
  have hlen := outlierStep_length (List.replicate 9 zeroRawRow)
  simp only [List.length_replicate] at hlen
  simp only [preprocessData]
  split_ifs with h1 h2 h3
  · rfl
  · rw [hlen] at h3
    omega
  · rw [hlen] at h2
    omega
  · norm_num at h1

/-! ### Claim C3: outlier suppression idempotence -/

/-- Counterexample to claim C3 as stated: on `c3Rows` the first pass
replaces the value 100 with the channel mean `101/12`, which the second
pass in turn flags as an outlier of the new, much tighter distribution and
replaces again — so re-running the step on its own output changes it. -/
theorem c3_outlier_not_idempotent :
    outlierStep (outlierStep c3Rows) ≠ outlierStep c3Rows := by
  intro h
  have h2 := congrArg (List.map RawRow.s1_accel_x) h
  rw [outlierStep_map_s1ax, outlierStep_map_s1ax] at h2
  have hc : c3Rows.map RawRow.s1_accel_x = [0, 0, 0, 0, 0, 0, 0, 0, 0, 0, 1, 100] := by
    norm_num [c3Rows, zeroRawRow, List.replicate]
  rw [hc] at h2
  rw [show suppressChannel [0, 0, 0, 0, 0, 0, 0, 0, 0, 0, 1, 100] =
      [0, 0, 0, 0, 0, 0, 0, 0, 0, 0, 1, 101 / 12] from by
    norm_num [suppressChannel, channelMean]] at h2
  rw [show suppressChannel [0, 0, 0, 0, 0, 0, 0, 0, 0, 0, 1, 101 / 12] =
      [0, 0, 0, 0, 0, 0, 0, 0, 0, 0, 1, 113 / 144] from by
    norm_num [suppressChannel, channelMean]] at h2
  norm_num at h2

/-- Amended claim C3: the outlier-suppression step is idempotent on every
series it leaves unchanged (a series with no 3-sigma outliers); full
idempotence fails (`c3_outlier_not_idempotent`). -/
theorem c3_outlier_idempotent_on_fixed_points (rows : List RawRow)
    (h : outlierStep rows = rows) :
    outlierStep (outlierStep rows) = outlierStep rows := by
  rw [h]
  exact h

/-- Witness for `c3_outlier_idempotent_on_fixed_points` on three zero
samples. -/
theorem c3_outlier_witness :
    outlierStep [zeroRawRow, zeroRawRow, zeroRawRow] = [zeroRawRow, zeroRawRow, zeroRawRow] ∧
      outlierStep (outlierStep [zeroRawRow, zeroRawRow, zeroRawRow]) =
        outlierStep [zeroRawRow, zeroRawRow, zeroRawRow] :=
  ⟨by norm_num [outlierStep, mapChannel, suppressChannel, channelMean, zeroRawRow],
   c3_outlier_idempotent_on_fixed_points [zeroRawRow, zeroRawRow, zeroRawRow]
     (by norm_num [outlierStep, mapChannel, suppressChannel, channelMean, zeroRawRow])⟩

/-! ### Claim C4: orientation extraction -/

theorem atan2_zero_of_pos (x : ℝ) (hx : 0 < x) : atan2 0 x = 0 := by
  unfold atan2
  rw [if_pos hx, zero_div, Real.arctan_zero]

theorem pitchOf_zero (g : ℝ) (hg : 0 < g) : pitchOf 0 0 g = 0 := by
  unfold pitchOf
  have hsqrt : Real.sqrt ((0 : ℝ) ^ 2 + g ^ 2) = g := by
    rw [show (0 : ℝ) ^ 2 + g ^ 2 = g ^ 2 by ring]
    exact Real.sqrt_sq hg.le
  rw [neg_zero, hsqrt, atan2_zero_of_pos g hg, zero_mul, zero_div]

theorem rollOf_zero (g : ℝ) (hg : 0 < g) : rollOf 0 g = 0 := by
  unfold rollOf
  rw [atan2_zero_of_pos g hg, zero_mul, zero_div]

/-- Claim C4: per sensor, `extract_orientation` computes
`pitch = atan2(-accel_x, sqrt(accel_y^2 + accel_z^2))` and
`roll = atan2(accel_y, accel_z)` in degrees, and the three inter-sensor
curvature columns; in particular an accelerometer vector `(0, 0, g)` with
`g > 0` gives pitch 0 and roll 0, and identical accelerometer readings on
both sensors give all three curvature values 0. -/
theorem c4_orientation_extractor (g : ℝ) (r : AccelPair) (hg : 0 < g) :
    (s1_pitch r = atan2 (-r.s1x) (Real.sqrt (r.s1y ^ 2 + r.s1z ^ 2)) * 180 / Real.pi ∧
     s1_roll r = atan2 r.s1y r.s1z * 180 / Real.pi ∧
     spine_pitch_curvature r = s1_pitch r - s2_pitch r ∧
     spine_roll_curvature r = s1_roll r - s2_roll r ∧
     spine_curvature_magnitude r =
       Real.sqrt (spine_pitch_curvature r ^ 2 + spine_roll_curvature r ^ 2)) ∧
    (s1_pitch ⟨0, 0, g, 0, 0, g⟩ = 0 ∧ s1_roll ⟨0, 0, g, 0, 0, g⟩ = 0 ∧
     s2_pitch ⟨0, 0, g, 0, 0, g⟩ = 0 ∧ s2_roll ⟨0, 0, g, 0, 0, g⟩ = 0) ∧
    (r.s1x = r.s2x → r.s1y = r.s2y → r.s1z = r.s2z →
      spine_pitch_curvature r = 0 ∧ spine_roll_curvature r = 0 ∧
        spine_curvature_magnitude r = 0) := by
  refine ⟨⟨rfl, rfl, rfl, rfl, rfl⟩, ⟨?_, ?_, ?_, ?_⟩, ?_⟩
  · exact pitchOf_zero g hg
  · exact rollOf_zero g hg
  · exact pitchOf_zero g hg
  · exact rollOf_zero g hg
  · intro h1 h2 h3
    have hp : spine_pitch_curvature r = 0 := by
      unfold spine_pitch_curvature s1_pitch s2_pitch
      rw [h1, h2, h3, sub_self]
    have hr : spine_roll_curvature r = 0 := by
      unfold spine_roll_curvature s1_roll s2_roll
      rw [h2, h3, sub_self]
    refine ⟨hp, hr, ?_⟩
    unfold spine_curvature_magnitude
    rw [hp, hr]
    norm_num

/-- Witness for `c4_orientation_extractor` at `g = 1` with both sensors
reading `(0, 0, 1)`. -/
theorem c4_orientation_witness :
    (0 : ℝ) < 1 ∧ s1_pitch ⟨0, 0, 1, 0, 0, 1⟩ = 0 ∧
      spine_curvature_magnitude ⟨0, 0, 1, 0, 0, 1⟩ = 0 :=
  ⟨by norm_num,
   (c4_orientation_extractor 1 ⟨0, 0, 1, 0, 0, 1⟩ (by norm_num)).2.1.1,
   ((c4_orientation_extractor 1 ⟨0, 0, 1, 0, 0, 1⟩ (by norm_num)).2.2 rfl rfl rfl).2.2⟩

/-! ### Claim C1: classifier severity and label rule -/

theorem classifyRow_severity (row : CRow) :
    (classifyRow row).severity_score = min (postureIssuesSeverity row).2 10 := by
  simp only [classifyRow]
  split_ifs <;> rfl

theorem postureIssuesSeverity_snd (row : CRow) :
    (postureIssuesSeverity row).2 =
      specForwardHeadDelta row.s1_pitch + specHunchedDelta row.spine_pitch_curvature +
        specSideLeanDelta row.spine_roll_curvature := rfl

/-- Claim C1: for every input row, `classify_posture_realtime` assigns the
row the classification of `classifyRow`; its severity is the capped sum of
the three per-criterion deltas (+3/+1 forward head, +3/+1 hunched, +2/+1
side lean, +0 for movement issues), and the label/confidence pair is a
function of the number of triggered issues alone (0 issues:
`good_posture`/0.9; exactly 1: that issue's name/0.8; more:
`multiple_issues`/0.7). -/
theorem c1_classifier_rule (rows : List CRow) (i : ℕ) (row : CRow)
    (h : rows.get? i = some row) :
    (classifyPostureRealtime rows).get? i = some (classifyRow row) ∧
    (classifyRow row).severity_score =
      min (specForwardHeadDelta row.s1_pitch + specHunchedDelta row.spine_pitch_curvature +
        specSideLeanDelta row.spine_roll_curvature) 10 ∧
    ((postureIssuesSeverity row).1.length = 0 →
      (classifyRow row).posture_label = "good_posture" ∧
        (classifyRow row).confidence = 9 / 10) ∧
    ((postureIssuesSeverity row).1.length = 1 →
      ∃ nm, (postureIssuesSeverity row).1 = [nm] ∧
        (classifyRow row).posture_label = nm ∧ (classifyRow row).confidence = 8 / 10) ∧
    (1 < (postureIssuesSeverity row).1.length →
      (classifyRow row).posture_label = "multiple_issues" ∧
        (classifyRow row).confidence = 7 / 10) := by
  refine ⟨?_, ?_, ?_, ?_, ?_⟩
  · have h' : rows[i]? = some row := by
      rw [← List.get?_eq_getElem?]
      exact h
    simp [classifyPostureRealtime, List.get?_eq_getElem?, List.getElem?_map, h']
  · rw [classifyRow_severity, postureIssuesSeverity_snd]
  · intro h0
    have he : (postureIssuesSeverity row).1 = [] := List.length_eq_zero.mp h0
    simp only [classifyRow]
    rw [if_pos he]
    exact ⟨rfl, rfl⟩
  · intro h1
    obtain ⟨nm, hnm⟩ := List.length_eq_one.mp h1
    have hlab : classifyRow row =
        ⟨nm, min (postureIssuesSeverity row).2 10, 8 / 10⟩ := by
      simp only [classifyRow]
      rw [if_neg (by simp [hnm]), if_pos h1, hnm]
      rfl
    exact ⟨nm, hnm, by rw [hlab], by rw [hlab]⟩
  · intro h2
    have hne : ¬(postureIssuesSeverity row).1 = [] := by
      intro he
      rw [he] at h2
      simp at h2
    have hne1 : ¬(postureIssuesSeverity row).1.length = 1 := by omega
    simp only [classifyRow]
    rw [if_neg hne, if_neg hne1]
    exact ⟨rfl, rfl⟩

/-- Witness for `c1_classifier_rule`: a row with pitch and curvatures 0 and
`spine_stability = 0` triggers exactly the `static_posture` issue, so the
label is that issue's name with confidence 0.8. -/
theorem c1_classifier_witness :
    ([(⟨some 0, 0, 0, 0⟩ : CRow)].get? 0 = some ⟨some 0, 0, 0, 0⟩) ∧
      (postureIssuesSeverity ⟨some 0, 0, 0, 0⟩).1.length = 1 ∧
      ∃ nm, (postureIssuesSeverity ⟨some 0, 0, 0, 0⟩).1 = [nm] ∧
        (classifyRow ⟨some 0, 0, 0, 0⟩).posture_label = nm ∧
        (classifyRow ⟨some 0, 0, 0, 0⟩).confidence = 8 / 10 :=
  ⟨rfl, by norm_num [postureIssuesSeverity, thresholds],
   (c1_classifier_rule [⟨some 0, 0, 0, 0⟩] 0 ⟨some 0, 0, 0, 0⟩ rfl).2.2.2.1
     (by norm_num [postureIssuesSeverity, thresholds])⟩

/-! ### Claim C10: classification without a `spine_stability` column -/

/-- Claim C10: when the `spine_stability` column is absent the classifier
does not fail, never emits a movement issue, and classifies every row
exactly as the three angle criteria alone dictate. -/
theorem c10_missing_stability_column (p c r : ℚ) :
    "excessive_movement" ∉ (postureIssuesSeverity ⟨none, p, c, r⟩).1 ∧
    "static_posture" ∉ (postureIssuesSeverity ⟨none, p, c, r⟩).1 ∧
    classifyRow ⟨none, p, c, r⟩ = specAngleOnlyClassify p c r := by
  refine ⟨?_, ?_, ?_⟩
  · simp only [postureIssuesSeverity]
    split_ifs <;> decide
  · simp only [postureIssuesSeverity]
    split_ifs <;> decide
  · simp only [classifyRow, specAngleOnlyClassify, postureIssuesSeverity,
      specForwardHeadDelta, specHunchedDelta, specSideLeanDelta, List.append_nil]

/-- Witness for `c10_missing_stability_column` at the all-zero row (which,
without the stability column, is classified `good_posture`). -/
theorem c10_missing_stability_witness :
    "excessive_movement" ∉ (postureIssuesSeverity ⟨none, 0, 0, 0⟩).1 ∧
      classifyRow ⟨none, 0, 0, 0⟩ = specAngleOnlyClassify 0 0 0 :=
  ⟨(c10_missing_stability_column 0 0 0).1, (c10_missing_stability_column 0 0 0).2.2⟩

/-! ### Claims C5 and C6: rolling features -/

theorem rollingMeanFilled_getElem?_of_lt (xs : List (Option ℚ)) (w minp i : ℕ)
    (hi : i < xs.length) (hc : (validVals (windowAt xs w i)).length < minp) :
    (rollingMeanFilled xs w minp)[i]? = some 0 := by
  simp [rollingMeanFilled, List.getElem?_map, List.getElem?_range hi, hc]

theorem rollingStdFilled_getElem?_of_lt (xs : List (Option ℚ)) (w minp i : ℕ)
    (hi : i < xs.length) (hc : (validVals (windowAt xs w i)).length < minp) :
    (rollingStdFilled xs w minp)[i]? = some 0 := by
  simp [rollingStdFilled, List.getElem?_map, List.getElem?_range hi, hc]

theorem validVals_windowAt_asOpt (xs : List ℚ) (w i : ℕ) :
    validVals (windowAt (asOpt xs) w i) = (xs.take (i + 1)).drop (i + 1 - w) := by
  simp only [windowAt, asOpt, validVals, ← List.map_take, ← List.map_drop,
    List.filterMap_map]
  exact List.filterMap_some _

theorem validVals_take_diffOpt_le (l : List ℚ) (k : ℕ) :
    (validVals ((diffOpt l).take (k + 1))).length ≤ k := by
  cases l with
  | nil => simp [diffOpt, validVals]
  | cons a t =>
    simp only [diffOpt, List.take_succ_cons, validVals, List.filterMap_cons]
    calc (List.filterMap id ((((a :: t).zip t).map fun p => some (p.2 - p.1)).take k)).length
        ≤ ((((a :: t).zip t).map fun p => some (p.2 - p.1)).take k).length :=
          List.length_filterMap_le _ _
      _ ≤ k := by simp [List.length_take]

theorem diffOpt_length (l : List ℚ) (h : l ≠ []) : (diffOpt l).length = l.length := by
  cases l with
  | nil => simp at h
  | cons a t => simp [diffOpt, List.length_zipWith]

theorem c5Rows_length : c5Rows.length = 10 := by
  simp only [c5Rows, List.length_map, List.length_range]

/-- Counterexample to claim C5 as stated: on `c5Rows` (pitch `0..9`, ten
samples, `window_samples = 10`), the rolling window of `s1_pitch_velocity`
at index 2 holds only 2 valid differenced samples — fewer than 5 — yet the
feature value there is 1, not zero: the velocity features use
`min_periods=2`, not 5. -/
theorem c5_velocity_nonzero_below_five :
    (validVals (windowAt (diffOpt (c5Rows.map FRow.s1_pitch)) 5 2)).length = 2 ∧
      (2 : ℕ) < 5 ∧ (s1PitchVelocity 10 c5Rows)[2]? = some 1 ∧ (1 : ℚ) ≠ 0 := by
  have hp : c5Rows.map FRow.s1_pitch = [0, 1, 2, 3, 4, 5, 6, 7, 8, 9] := by
    norm_num [c5Rows, zeroFRow, List.range_succ]
  have hw : (10 : ℕ) ≤ windowSamples 10 c5Rows.length := by
    rw [c5Rows_length]
    decide
  refine ⟨?_, by norm_num, ?_, by norm_num⟩
  · rw [hp]
    norm_num [diffOpt, windowAt, validVals, List.filterMap_cons, List.filterMap_nil]
  · simp only [s1PitchVelocity, if_pos hw, hp]
    norm_num [rollingMeanFilled, diffOpt, windowAt, validVals, List.getElem?_map,
      List.filterMap_cons, List.filterMap_nil]

/-- Amended claim C5: when the whole series has fewer than 10 samples every
rolling feature is zero at every index; when `window_samples >= 10`, the
rolling-std features (`min_periods=5`: the two movement variabilities and
`spine_stability`) are zero at every index whose window holds fewer than 5
samples, and the velocity features are zero at every index with fewer than
2 valid differenced samples in the window; velocity features use
`min_periods=2`, so they can be nonzero from the third sample on
(`c5_velocity_nonzero_below_five`). -/
theorem c5_rolling_features_zero (sr : ℕ) (rows : List FRow) :
    (rows.length < 10 →
      s1MovementVariability sr rows = List.replicate rows.length 0 ∧
      s2MovementVariability sr rows = List.replicate rows.length 0 ∧
      spineStability sr rows = List.replicate rows.length 0 ∧
      s1PitchVelocity sr rows = List.replicate rows.length 0 ∧
      s2PitchVelocity sr rows = List.replicate rows.length 0 ∧
      s1PitchAcceleration sr rows = List.replicate rows.length 0 ∧
      s2PitchAcceleration sr rows = List.replicate rows.length 0 ∧
      s1CumulativeRotation sr rows = List.replicate rows.length 0 ∧
      s2CumulativeRotation sr rows = List.replicate rows.length 0) ∧
    (10 ≤ windowSamples sr rows.length →
      (∀ i, i < 4 →
        (s1MovementVariability sr rows)[i]? = some 0 ∧
        (s2MovementVariability sr rows)[i]? = some 0 ∧
        (spineStability sr rows)[i]? = some 0) ∧
      (∀ i, i < 2 →
        (s1PitchVelocity sr rows)[i]? = some 0 ∧
        (s2PitchVelocity sr rows)[i]? = some 0)) := by
  constructor
  · intro hlen
    have hw : ¬(10 ≤ windowSamples sr rows.length) := by
      simp only [windowSamples]
      omega
    exact ⟨by simp [s1MovementVariability, hw], by simp [s2MovementVariability, hw],
      by simp [spineStability, hw], by simp [s1PitchVelocity, hw],
      by simp [s2PitchVelocity, hw], by simp [s1PitchAcceleration, hw],
      by simp [s2PitchAcceleration, hw], by simp [s1CumulativeRotation, hw],
      by simp [s2CumulativeRotation, hw]⟩
  · intro hw
    have hlen : 10 ≤ rows.length := le_trans hw (min_le_right _ _)
    have hwge : 4 ≤ windowSamples sr rows.length := by omega
    have hstd : ∀ (xs : List ℚ), xs.length = rows.length → ∀ i, i < 4 →
        (rollingStdFilled (asOpt xs) (windowSamples sr rows.length) 5)[i]? = some 0 := by
      intro xs hxs i hi
      apply rollingStdFilled_getElem?_of_lt
      · simp [asOpt, hxs]
        omega
      · rw [validVals_windowAt_asOpt]
        have h0 : i + 1 - windowSamples sr rows.length = 0 := by omega
        rw [h0, List.drop_zero]
        simp [List.length_take, hxs]
        omega
    have hvel : ∀ (xs : List ℚ), xs.length = rows.length → ∀ i, i < 2 →
        (rollingMeanFilled (diffOpt xs) 5 2)[i]? = some 0 := by
      intro xs hxs i hi
      have hne : xs ≠ [] := by
        intro he
        rw [he] at hxs
        simp at hxs
        omega
      apply rollingMeanFilled_getElem?_of_lt
      · rw [diffOpt_length xs hne, hxs]
        omega
      · have h0 : i + 1 - 5 = 0 := by omega
        simp only [windowAt, h0, List.drop_zero]
        have := validVals_take_diffOpt_le xs i
        omega
    refine ⟨fun i hi => ⟨?_, ?_, ?_⟩, fun i hi => ⟨?_, ?_⟩⟩
    · simp only [s1MovementVariability, if_pos hw]
      exact hstd _ (by simp) i hi
    · simp only [s2MovementVariability, if_pos hw]
      exact hstd _ (by simp) i hi
    · simp only [spineStability, if_pos hw]
      exact hstd _ (by simp) i hi
    · simp only [s1PitchVelocity, if_pos hw]
      exact hvel _ (by simp) i hi
    · simp only [s2PitchVelocity, if_pos hw]
      exact hvel _ (by simp) i hi

/-- Witness for `c5_rolling_features_zero`: on a 3-sample series every
rolling feature is the all-zero column, and on a 10-sample series the
rolling-std features are zero at index 2. -/
theorem c5_rolling_features_witness :
    ((List.replicate 3 zeroFRow).length < 10 ∧
      s1PitchVelocity 10 (List.replicate 3 zeroFRow) =
        List.replicate (List.replicate 3 zeroFRow).length 0) ∧
    (10 ≤ windowSamples 10 c5Rows.length ∧ (2 : ℕ) < 4 ∧
      (s1MovementVariability 10 c5Rows)[2]? = some 0) :=
  ⟨⟨by simp, ((c5_rolling_features_zero 10 (List.replicate 3 zeroFRow)).1
      (by simp)).2.2.2.1⟩,
   ⟨by rw [c5Rows_length]; decide, by norm_num,
    (((c5_rolling_features_zero 10 c5Rows).2 (by rw [c5Rows_length]; decide)).1
      2 (by norm_num)).1⟩⟩

theorem cumsum_chain (l : List ℚ) (h : ∀ x ∈ l, 0 ≤ x) :
    List.Chain' (· ≤ ·) (cumsum l) := by
  unfold cumsum
  rw [List.chain'_map]
  cases hn : l.length with
  | zero => simp
  | succ n =>
    rw [List.chain'_range_succ]
    intro m hm
    rw [List.take_succ (n := m + 1), List.sum_append]
    have h0 : 0 ≤ (l[m + 1]?.toList).sum := by
      cases hg : l[m + 1]? with
      | none => simp
      | some x =>
        obtain ⟨hlt, hx⟩ := List.getElem?_eq_some_iff.mp hg
        simpa [hx] using h _ (hx ▸ List.getElem_mem hlt)
    linarith

theorem chain'_map_mul_nonneg (l : List ℚ) (c : ℚ) (hc : 0 ≤ c)
    (h : List.Chain' (· ≤ ·) l) : List.Chain' (· ≤ ·) (l.map fun x => x * c) := by
  rw [List.chain'_map]
  exact h.imp fun a b hab => mul_le_mul_of_nonneg_right hab hc

/-- Claim C6: whenever the rolling-feature branch is taken
(`window_samples >= 10`), each sensor's `cumulative_rotation` column — the
running sum of `(|gyro_x|+|gyro_y|+|gyro_z|) * dt` — is monotonically
non-decreasing along the series. -/
theorem c6_cumulative_rotation_monotone (sr : ℕ) (rows : List FRow)
    (hsr : 0 < sr) (hw : 10 ≤ windowSamples sr rows.length) :
    List.Chain' (· ≤ ·) (s1CumulativeRotation sr rows) ∧
      List.Chain' (· ≤ ·) (s2CumulativeRotation sr rows) := by
  have hdt : (0 : ℚ) ≤ 1 / (sr : ℚ) := by positivity
  constructor
  · simp only [s1CumulativeRotation, if_pos hw]
    refine chain'_map_mul_nonneg _ _ hdt (cumsum_chain _ ?_)
    intro x hx
    rw [List.mem_map] at hx
    obtain ⟨r, _, rfl⟩ := hx
    positivity
  · simp only [s2CumulativeRotation, if_pos hw]
    refine chain'_map_mul_nonneg _ _ hdt (cumsum_chain _ ?_)
    intro x hx
    rw [List.mem_map] at hx
    obtain ⟨r, _, rfl⟩ := hx
    positivity

/-- Witness for `c6_cumulative_rotation_monotone` on ten zero samples at
10 Hz. -/
theorem c6_cumulative_rotation_witness :
    (0 : ℕ) < 10 ∧ 10 ≤ windowSamples 10 (List.replicate 10 zeroFRow).length ∧
      List.Chain' (· ≤ ·) (s1CumulativeRotation 10 (List.replicate 10 zeroFRow)) :=
  ⟨by norm_num, by simp [windowSamples],
   (c6_cumulative_rotation_monotone 10 (List.replicate 10 zeroFRow) (by norm_num)
     (by simp [windowSamples])).1⟩

/-! ### Claim C7: insufficient-data guard of the trend analyzer -/

/-- Claim C7: `analyze_patterns` returns
`pattern_analysis = "insufficient_data"` together with exactly one
recommendation if and only if the series is shorter than
`60 * sample_rate`; for such inputs it produces no posture distribution and
no trends.  (The long branch never sets the `pattern_analysis` key at
all.) -/
theorem c7_insufficient_data (sr minutes : ℕ) (rows : List PRow) (hsr : 0 < sr) :
    (((analyzePatterns sr minutes rows).pattern_analysis = some "insufficient_data" ∧
        (analyzePatterns sr minutes rows).recommendations.length = 1) ↔
      rows.length < sr * 60) ∧
    (rows.length < sr * 60 →
      (analyzePatterns sr minutes rows).posture_distribution = none ∧
        (analyzePatterns sr minutes rows).trends = ⟨none, none, none⟩) := by
  by_cases h : rows.length < sr * 60
  · constructor
    · simp [analyzePatterns, h]
    · intro _
      simp [analyzePatterns, h]
  · constructor
    · simp [analyzePatterns, h]
    · intro hh
      exact absurd hh h

/-- Witness for `c7_insufficient_data` at 10 Hz on the empty series. -/
theorem c7_insufficient_data_witness :
    (0 : ℕ) < 10 ∧
      (((analyzePatterns 10 5 []).pattern_analysis = some "insufficient_data" ∧
          (analyzePatterns 10 5 []).recommendations.length = 1) ↔
        ([] : List PRow).length < 10 * 60) ∧
      (([] : List PRow).length < 10 * 60 →
        (analyzePatterns 10 5 []).posture_distribution = none ∧
          (analyzePatterns 10 5 []).trends = ⟨none, none, none⟩) :=
  ⟨by norm_num, (c7_insufficient_data 10 5 [] (by norm_num)).1,
   (c7_insufficient_data 10 5 [] (by norm_num)).2⟩

end SmartPosture
